import Mathlib

/- Shallow embedding of the swap-quote service and its HTTP handler from the
0x-api repository (src/services/swap_service.ts, src/handlers/swap_handlers.ts).

Modelling conventions:
* `BigNumber` values and JavaScript numbers are modelled as exact rationals
  (`ℚ`); the rounding operations of bignumber.js (`integerValue`,
  `decimalPlaces`, `toPrecision`, default mode ROUND_HALF_UP, i.e. half away
  from zero) are made explicit.
* External collaborators (the asset-swapper quoting library, the web3 RPC
  layer, the ABI encoders, the WETH contract wrapper and the token-metadata
  utilities, none of which live in this repository) are fields of explicit
  environment records `SwapEnv` / `HandlerEnv`; the configuration constants
  imported from `../config` and `../constants` (also outside the service and
  handler sources) are further fields of `SwapEnv`, so every theorem holds for
  every value of those constants.
* Fallible asynchronous calls are modelled with `Except ServiceError`; a
  thrown JavaScript value is the `.error` case.
* JavaScript truthiness tests on optional strings (`if (from)`,
  `affiliateAddress ? ... : ...`) are modelled by `presentString`: both
  `undefined` and the empty string are falsy. Truthiness tests on optional
  `BigNumber` objects (`buyAmount || sellAmount`, `providedGasPrice || ...`)
  only test for `undefined`, because a BigNumber object is always truthy.
-/

/- `⌊x⌋` computed directly on the reduced fraction (the denominator of a `ℚ`
is positive, so flooring division of numerator by denominator is the floor). -/
def ratFloor (x : ℚ) : ℤ :=
  x.num.fdiv (x.den : ℤ)

/- bignumber.js ROUND_HALF_UP: round to the nearest integer, halves away from
zero. -/
def roundHalfUp (x : ℚ) : ℤ :=
  if 0 ≤ x then ratFloor (x + 1 / 2) else -ratFloor (-x + 1 / 2)

/- `BigNumber.integerValue()` with the default rounding mode. -/
def integerValue (x : ℚ) : ℚ :=
  (roundHalfUp x : ℚ)

/- `BigNumber.decimalPlaces(dp)` with the default rounding mode. -/
def decimalPlaces (dp : ℕ) (x : ℚ) : ℚ :=
  (roundHalfUp (x * 10 ^ dp) : ℚ) / 10 ^ dp

/- `Web3Wrapper.toUnitAmount(amount, decimals)`: divide by `10 ^ decimals`. -/
def toUnitAmount (amount : ℚ) (decimals : ℕ) : ℚ :=
  amount / 10 ^ decimals

/- Fuel-driven base-10 logarithm (number of digits minus one). -/
def natLog10Fuel : ℕ → ℕ → ℕ
  | 0, _ => 0
  | fuel + 1, n => if n < 10 then 0 else natLog10Fuel fuel (n / 10) + 1

def natLog10 (n : ℕ) : ℕ :=
  natLog10Fuel n n

/- Exponent of the leading decimal digit of `x` (for nonzero `x`, the unique
`e` with `10 ^ e ≤ |x| < 10 ^ (e + 1)`). -/
def decExp (x : ℚ) : ℤ :=
  let n := x.num.natAbs
  let d := x.den
  let a := natLog10 n
  let b := natLog10 d
  if d * 10 ^ a ≤ n * 10 ^ b then (a : ℤ) - (b : ℤ) else (a : ℤ) - (b : ℤ) - 1

/- `toPrecision(sd)`: round to `sd` significant decimal digits. -/
def toPrecisionQ (sd : ℕ) (x : ℚ) : ℚ :=
  if x = 0 then 0
  else
    let scale : ℤ := decExp x - (sd : ℤ) + 1
    (roundHalfUp (x / (10 : ℚ) ^ scale) : ℚ) * (10 : ℚ) ^ scale

/- JavaScript truthiness of a `string | undefined` value: `undefined` and the
empty string are falsy, every other string is truthy. -/
def presentString (o : Option String) : Option String :=
  match o with
  | some s => if s = "" then none else some s
  | none => none

/- JavaScript `s.startsWith(p)`: `p` is a prefix of `s`. -/
def strStartsWith (s p : String) : Bool :=
  p.data.isPrefixOf s.data

/- Modelled from the spec: the `ERC20BridgeSource` enumeration belongs to the
external `@0x/asset-swapper` library ("the external quoting library for the
actual computation"); its members are taken from the sources the repository
itself names (the tests exclude `Uniswap,Eth2Dai,Kyber,LiquidityProvider`, the
handler comment shows `CurveUsdcDaiUsdt = 'Curve_USDC_DAI_USDT'`, and `Native`
is renamed to `0x`). -/
inductive ERC20BridgeSource
  | Native
  | Uniswap
  | Eth2Dai
  | Kyber
  | CurveUsdcDai
  | CurveUsdcDaiUsdt
  | CurveUsdcDaiUsdtTusd
  | CurveUsdcDaiUsdtBusd
  | LiquidityProvider
deriving DecidableEq

/- The string value of each enum member (`Object.values(ERC20BridgeSource)`
elements and `Object.entries` keys). -/
def sourceName : ERC20BridgeSource → String
  | .Native => "Native"
  | .Uniswap => "Uniswap"
  | .Eth2Dai => "Eth2Dai"
  | .Kyber => "Kyber"
  | .CurveUsdcDai => "Curve_USDC_DAI"
  | .CurveUsdcDaiUsdt => "Curve_USDC_DAI_USDT"
  | .CurveUsdcDaiUsdtTusd => "Curve_USDC_DAI_USDT_TUSD"
  | .CurveUsdcDaiUsdtBusd => "Curve_USDC_DAI_USDT_BUSD"
  | .LiquidityProvider => "LiquidityProvider"

/- `Object.values(ERC20BridgeSource)` in declaration order. -/
def allSources : List ERC20BridgeSource :=
  [.Native, .Uniswap, .Eth2Dai, .Kyber, .CurveUsdcDai, .CurveUsdcDaiUsdt,
   .CurveUsdcDaiUsdtTusd, .CurveUsdcDaiUsdtBusd, .LiquidityProvider]

/- `SignedOrder` (from `@0x/types`), with exactly the seventeen fields that
`_cleanSignedOrderFields` copies. -/
structure SignedOrder where
  chainId : ℕ
  exchangeAddress : String
  makerAddress : String
  takerAddress : String
  feeRecipientAddress : String
  senderAddress : String
  makerAssetAmount : ℚ
  takerAssetAmount : ℚ
  makerFee : ℚ
  takerFee : ℚ
  expirationTimeSeconds : ℚ
  salt : ℚ
  makerAssetData : String
  takerAssetData : String
  makerFeeAssetData : String
  takerFeeAssetData : String
  signature : String
deriving DecidableEq

/- `SwapQuoteInfo` of `@0x/asset-swapper`, fields as instantiated in
test/app_test.ts. -/
structure SwapQuoteInfo where
  feeTakerAssetAmount : ℚ
  takerAssetAmount : ℚ
  totalTakerAssetAmount : ℚ
  makerAssetAmount : ℚ
  protocolFeeInWeiAmount : ℚ
  gas : ℚ
deriving DecidableEq

/- The parts of a `MarketSellSwapQuote | MarketBuySwapQuote` that the service
reads. The source breakdown is a partial map from bridge sources to
percentages (`SwapQuoteOrdersBreakdown`). -/
structure SwapQuote where
  takerAssetData : String
  makerAssetData : String
  gasPrice : ℚ
  orders : List SignedOrder
  bestCaseQuoteInfo : SwapQuoteInfo
  worstCaseQuoteInfo : SwapQuoteInfo
  sourceBreakdown : ERC20BridgeSource → Option ℚ

/- Result of `SwapQuoteConsumer.getCalldataOrThrowAsync`. -/
structure CalldataInfo where
  calldataHexString : String
  ethAmount : ℚ
  toAddress : String
deriving DecidableEq

/- The partial `TxData` assembled for gas estimation and `eth_call`. -/
structure TxData where
  «to» : String
  data : String
  «from» : String
  value : ℚ
  gasPrice : ℚ
deriving DecidableEq

/- `ExtensionContractType` of `@0x/asset-swapper`. -/
inductive ExtensionContractType
  | None
  | Forwarder
deriving DecidableEq

/- `GetSwapQuoteResponseLiquiditySource` from src/types.ts. -/
structure GetSwapQuoteResponseLiquiditySource where
  name : String
  proportion : ℚ
deriving DecidableEq

/- `GetSwapQuoteResponse` from src/types.ts, as assembled by the service. -/
structure GetSwapQuoteResponse where
  price : ℚ
  guaranteedPrice : ℚ
  «to» : String
  data : String
  value : ℚ
  gas : ℚ
  «from» : Option String
  gasPrice : ℚ
  protocolFee : ℚ
  buyTokenAddress : String
  sellTokenAddress : String
  buyAmount : ℚ
  sellAmount : ℚ
  sources : List GetSwapQuoteResponseLiquiditySource
  orders : List SignedOrder
deriving DecidableEq

/- `CalculateSwapQuoteParams` from src/types.ts (the fields the service
destructures). -/
structure CalculateSwapQuoteParams where
  buyTokenAddress : String
  sellTokenAddress : String
  buyAmount : Option ℚ
  sellAmount : Option ℚ
  «from» : Option String
  isETHSell : Bool
  slippagePercentage : ℚ
  gasPrice : Option ℚ
  excludedSources : Option (List ERC20BridgeSource)
  affiliateAddress : Option String
deriving DecidableEq

/- The options the service overrides on top of
`ASSET_SWAPPER_MARKET_ORDERS_OPTS` when calling the quoter. -/
structure AssetSwapperOpts where
  slippagePercentage : ℚ
  bridgeSlippage : ℚ
  gasPrice : Option ℚ
  excludedSources : Option (List ERC20BridgeSource)
deriving DecidableEq

def assetSwapperOptsOf (params : CalculateSwapQuoteParams) : AssetSwapperOpts :=
  { slippagePercentage := params.slippagePercentage
    bridgeSlippage := params.slippagePercentage
    gasPrice := params.gasPrice
    excludedSources := params.excludedSources }

/- Validation error codes from src/errors.ts (module not under the provided
sources; constructors are the ones the handler names plus the standard
remainder). -/
inductive ValidationErrorCodes
  | RequiredField
  | IncorrectFormat
  | InvalidAddress
  | AddressNotSupported
  | ValueOutOfRange
  | InvalidSignatureOrHash
  | UnsupportedOption
  | TokenNotSupported
deriving DecidableEq

structure ValidationErrorItem where
  field : String
  code : ValidationErrorCodes
  reason : String
deriving DecidableEq

/- A `RevertError` of `@0x/utils`, kept abstract as its decoded payload. -/
abbrev RevertError := String

/- The API-level errors the handler can throw (src/errors.ts). -/
inductive APIError
  | validationError (items : List ValidationErrorItem)
  | revertAPIError (r : RevertError)
  | internalServerError (message : String)
deriving DecidableEq

/- A JavaScript value thrown inside the service or by a collaborator:
either an already-transformed API error (`isAPIError`), a revert error
(`isRevertError`), or any other error carrying a message. -/
inductive ServiceError
  | api (e : APIError)
  | revert (r : RevertError)
  | plain (message : String)
deriving DecidableEq

/- `SwapQuoterError.InsufficientAssetLiquidity` of `@0x/asset-swapper`; its
string value is pinned by test/app_test.ts, which expects the reason
`INSUFFICIENT_ASSET_LIQUIDITY`. -/
def SwapQuoterErrorInsufficientAssetLiquidity : String := "INSUFFICIENT_ASSET_LIQUIDITY"

/- `SwapQuoterError.AssetUnavailable` of `@0x/asset-swapper`. -/
def SwapQuoterErrorAssetUnavailable : String := "ASSET_UNAVAILABLE"

/- The environment of `SwapService`: every external collaborator the service
calls, together with the configuration constants imported from `../config`
and `../constants` (modules outside the provided sources, hence parameters). -/
structure SwapEnv where
  GAS_LIMIT_BUFFER_PERCENTAGE : ℚ
  FEE_RECIPIENT_ADDRESS : String
  WRAP_QUOTE_GAS : ℚ
  UNWRAP_QUOTE_GAS : ℚ
  PERCENTAGE_SIG_DIGITS : ℕ
  ONE_SECOND_MS : ℚ
  nowMs : ℚ
  wethAddress : String
  wethDepositData : String
  wethWithdrawData : ℚ → String
  getGasPriceEstimation : Except ServiceError ℚ
  getMarketSellSwapQuote : String → String → ℚ → AssetSwapperOpts → Except ServiceError SwapQuote
  getMarketBuySwapQuote : String → String → ℚ → AssetSwapperOpts → Except ServiceError SwapQuote
  getCalldataOrThrow : SwapQuote → ExtensionContractType → Except ServiceError CalldataInfo
  getBalanceInWei : String → ℚ
  estimateGas : TxData → Except ServiceError ℕ
  ethCall : TxData → Except ServiceError String
  decodeThrownErrorAsRevertError : ServiceError → RevertError
  decodeRevertError : String → Option RevertError
  decodeAssetData : String → Option String
  isBridgeAssetData : String → Bool
  encodeZeroExAPIAffiliate : String → ℚ → String
  fetchTokenDecimals : String → ℕ

/- swap_service.ts lines 340-363: re-attribute bridge orders to the fee
recipient; a failing `decodeAssetDataOrThrow` is caught and leaves the order
unmodified. -/
def _attributeSwapQuoteOrders (env : SwapEnv) (swapQuote : SwapQuote) : SwapQuote :=
  let attributedOrders := swapQuote.orders.map fun o =>
    match env.decodeAssetData o.makerAssetData with
    | some decodedAssetData =>
      if env.isBridgeAssetData decodedAssetData then
        { o with feeRecipientAddress := env.FEE_RECIPIENT_ADDRESS }
      else o
    | none => o
  { swapQuote with orders := attributedOrders }

/- swap_service.ts lines 366-381: append the ABI-encoded
`ZeroExAPIAffiliate(affiliate, timestamp)` call (with its `0x` prefix
stripped) to the calldata. `affiliateAddress ? affiliateAddress :
FEE_RECIPIENT_ADDRESS` is a JavaScript truthiness test. -/
def _attributeCallData (env : SwapEnv) (data : String) (affiliateAddress : Option String) : String :=
  let affiliateAddressOrDefault :=
    match presentString affiliateAddress with
    | some a => a
    | none => env.FEE_RECIPIENT_ADDRESS
  let timestamp := integerValue (env.nowMs / env.ONE_SECOND_MS)
  let encodedAffiliateData := env.encodeZeroExAPIAffiliate affiliateAddressOrDefault timestamp
  data ++ encodedAffiliateData.drop 2

/- swap_service.ts lines 431-450: run `eth_call`; a throwing RPC call is
decoded into a revert error and rethrown, a call result that decodes as a
`RevertError` is thrown, otherwise return unit. -/
def _throwIfCallIsRevertErrorAsync (env : SwapEnv) (txData : TxData) : Except ServiceError Unit :=
  match env.ethCall txData with
  | .error e => .error (.revert (env.decodeThrownErrorAsRevertError e))
  | .ok callResult =>
    match env.decodeRevertError callResult with
    | some revertError => .error (.revert revertError)
    | none => .ok ()

/- The `estimateGasAsync(txData).catch(_e => 0)` promise of
swap_service.ts line 333. -/
def gasEstimateOrZero (env : SwapEnv) (txData : TxData) : ℚ :=
  match env.estimateGas txData with
  | .ok gas => (gas : ℚ)
  | .error _ => 0

/- swap_service.ts lines 329-337. -/
def _estimateGasOrThrowRevertErrorAsync (env : SwapEnv) (txData : TxData) :
    Except ServiceError ℚ :=
  match _throwIfCallIsRevertErrorAsync env txData with
  | .error e => .error e
  | .ok _ => .ok (gasEstimateOrZero env txData)

/- swap_service.ts lines 305-327: one entry per enum member, in enum order;
sources present in the breakdown override the zero default; `Native` is
renamed `0x`. -/
def _convertSourceBreakdownToArray (env : SwapEnv)
    (sourceBreakdown : ERC20BridgeSource → Option ℚ) :
    List GetSwapQuoteResponseLiquiditySource :=
  allSources.foldl
    (fun acc source =>
      acc ++ [{ name := if source = ERC20BridgeSource.Native then "0x" else sourceName source,
                proportion := toPrecisionQ env.PERCENTAGE_SIG_DIGITS
                  ((sourceBreakdown source).getD 0) }])
    []

/- swap_service.ts lines 384-404. -/
def _cleanSignedOrderFields (orders : List SignedOrder) : List SignedOrder :=
  orders.map fun o =>
    { chainId := o.chainId
      exchangeAddress := o.exchangeAddress
      makerAddress := o.makerAddress
      takerAddress := o.takerAddress
      feeRecipientAddress := o.feeRecipientAddress
      senderAddress := o.senderAddress
      makerAssetAmount := o.makerAssetAmount
      takerAssetAmount := o.takerAssetAmount
      makerFee := o.makerFee
      takerFee := o.takerFee
      expirationTimeSeconds := o.expirationTimeSeconds
      salt := o.salt
      makerAssetData := o.makerAssetData
      takerAssetData := o.takerAssetData
      makerFeeAssetData := o.makerFeeAssetData
      takerFeeAssetData := o.takerFeeAssetData
      signature := o.signature }

/- swap_service.ts lines 96-112: pick the quoter call; a market sell is
requested whenever `sellAmount` is defined. -/
def requestedQuote (env : SwapEnv) (params : CalculateSwapQuoteParams) :
    Except ServiceError SwapQuote :=
  match params.sellAmount with
  | some sellAmount =>
    env.getMarketSellSwapQuote params.buyTokenAddress params.sellTokenAddress sellAmount
      (assetSwapperOptsOf params)
  | none =>
    match params.buyAmount with
    | some buyAmount =>
      env.getMarketBuySwapQuote params.buyTokenAddress params.sellTokenAddress buyAmount
        (assetSwapperOptsOf params)
    | none => .error (.plain "sellAmount or buyAmount required")

/- swap_service.ts line 127: ETH sells go through the Forwarder. -/
def extensionContractTypeOf (params : CalculateSwapQuoteParams) : ExtensionContractType :=
  if params.isETHSell then ExtensionContractType.Forwarder else ExtensionContractType.None

/- swap_service.ts lines 141-151: the transaction submitted to gas estimation
and `eth_call`; for a Forwarder sell the value is capped by the taker's ETH
balance. -/
def assembledTxData (env : SwapEnv) (params : CalculateSwapQuoteParams)
    (aq : SwapQuote) (ci : CalldataInfo) (f : String) : TxData :=
  { «to» := ci.toAddress
    data := _attributeCallData env ci.calldataHexString params.affiliateAddress
    «from» := f
    value :=
      if extensionContractTypeOf params = ExtensionContractType.Forwarder then
        min ci.ethAmount (env.getBalanceInWei f)
      else ci.ethAmount
    gasPrice := aq.gasPrice }

/- swap_service.ts lines 138-154: the gas estimate before the buffer is
applied. `if (from)` is a JavaScript truthiness test. -/
def suggestedGasBeforeBuffer (env : SwapEnv) (params : CalculateSwapQuoteParams)
    (aq : SwapQuote) (ci : CalldataInfo) : Except ServiceError ℚ :=
  match presentString params.«from» with
  | none => .ok aq.worstCaseQuoteInfo.gas
  | some f =>
    match _estimateGasOrThrowRevertErrorAsync env (assembledTxData env params aq ci f) with
    | .error e => .error e
    | .ok gasEstimate => .ok (max gasEstimate aq.worstCaseQuoteInfo.gas)

/- swap_service.ts lines 156-199: buffer the gas estimate, compute prices and
assemble the response. -/
def mkSwapQuoteResponse (env : SwapEnv) (params : CalculateSwapQuoteParams)
    (aq : SwapQuote) (ci : CalldataInfo) (preBufferGas : ℚ) : GetSwapQuoteResponse :=
  let suggestedGasEstimate := integerValue (preBufferGas * (env.GAS_LIMIT_BUFFER_PERCENTAGE + 1))
  let buyTokenDecimals := env.fetchTokenDecimals params.buyTokenAddress
  let sellTokenDecimals := env.fetchTokenDecimals params.sellTokenAddress
  let unitMakerAssetAmount := toUnitAmount aq.bestCaseQuoteInfo.makerAssetAmount buyTokenDecimals
  let unitTakerAssetAMount :=
    toUnitAmount aq.bestCaseQuoteInfo.totalTakerAssetAmount sellTokenDecimals
  let price :=
    match params.buyAmount with
    | none => decimalPlaces sellTokenDecimals (unitMakerAssetAmount / unitTakerAssetAMount)
    | some _ => decimalPlaces buyTokenDecimals (unitTakerAssetAMount / unitMakerAssetAmount)
  let guaranteedUnitMakerAssetAmount :=
    toUnitAmount aq.worstCaseQuoteInfo.makerAssetAmount buyTokenDecimals
  let guaranteedUnitTakerAssetAMount :=
    toUnitAmount aq.worstCaseQuoteInfo.totalTakerAssetAmount sellTokenDecimals
  let guaranteedPrice :=
    match params.buyAmount with
    | none =>
      decimalPlaces sellTokenDecimals
        (guaranteedUnitMakerAssetAmount / guaranteedUnitTakerAssetAMount)
    | some _ =>
      decimalPlaces buyTokenDecimals
        (guaranteedUnitTakerAssetAMount / guaranteedUnitMakerAssetAmount)
  { price := price
    guaranteedPrice := guaranteedPrice
    «to» := ci.toAddress
    data := _attributeCallData env ci.calldataHexString params.affiliateAddress
    value := ci.ethAmount
    gas := suggestedGasEstimate
    «from» := params.«from»
    gasPrice := aq.gasPrice
    protocolFee := aq.bestCaseQuoteInfo.protocolFeeInWeiAmount
    buyTokenAddress := params.buyTokenAddress
    sellTokenAddress := params.sellTokenAddress
    buyAmount := aq.bestCaseQuoteInfo.makerAssetAmount
    sellAmount := aq.bestCaseQuoteInfo.totalTakerAssetAmount
    sources := _convertSourceBreakdownToArray env aq.sourceBreakdown
    orders := _cleanSignedOrderFields aq.orders }

/- swap_service.ts lines 75-200. -/
def calculateSwapQuoteAsync (env : SwapEnv) (params : CalculateSwapQuoteParams) :
    Except ServiceError GetSwapQuoteResponse :=
  match requestedQuote env params with
  | .error e => .error e
  | .ok swapQuote =>
    let attributedSwapQuote := _attributeSwapQuoteOrders env swapQuote
    match env.getCalldataOrThrow attributedSwapQuote (extensionContractTypeOf params) with
    | .error e => .error e
    | .ok ci =>
      match suggestedGasBeforeBuffer env params attributedSwapQuote ci with
      | .error e => .error e
      | .ok preBufferGas => .ok (mkSwapQuoteResponse env params attributedSwapQuote ci preBufferGas)

/- swap_service.ts line 273: `buyAmount || sellAmount`; a BigNumber object is
always truthy, so this selects `buyAmount` whenever it is defined. -/
def requestedWethAmount (params : CalculateSwapQuoteParams) : Option ℚ :=
  match params.buyAmount with
  | some a => some a
  | none => params.sellAmount

/- swap_service.ts lines 260-304. -/
def _getSwapQuoteForWethAsync (env : SwapEnv) (params : CalculateSwapQuoteParams)
    (isUnwrap : Bool) : Except ServiceError GetSwapQuoteResponse :=
  match requestedWethAmount params with
  | none => .error (.plain "sellAmount or buyAmount required")
  | some amount =>
    let data := if isUnwrap then env.wethWithdrawData amount else env.wethDepositData
    let value : ℚ := if isUnwrap then 0 else amount
    let affiliatedData := _attributeCallData env data params.affiliateAddress
    let gasPriceResult : Except ServiceError ℚ :=
      match params.gasPrice with
      | some providedGasPrice => .ok providedGasPrice
      | none => env.getGasPriceEstimation
    match gasPriceResult with
    | .error e => .error e
    | .ok gasPrice =>
      .ok { price := 1
            guaranteedPrice := 1
            «to» := env.wethAddress
            data := affiliatedData
            value := value
            gas := if isUnwrap then env.UNWRAP_QUOTE_GAS else env.WRAP_QUOTE_GAS
            «from» := params.«from»
            gasPrice := gasPrice
            protocolFee := 0
            buyTokenAddress := params.buyTokenAddress
            sellTokenAddress := params.sellTokenAddress
            buyAmount := amount
            sellAmount := amount
            sources := []
            orders := [] }

/- swap_service.ts lines 202-204. -/
def getSwapQuoteForWrapAsync (env : SwapEnv) (params : CalculateSwapQuoteParams) :
    Except ServiceError GetSwapQuoteResponse :=
  _getSwapQuoteForWethAsync env params false

/- swap_service.ts lines 206-208. -/
def getSwapQuoteForUnwrapAsync (env : SwapEnv) (params : CalculateSwapQuoteParams) :
    Except ServiceError GetSwapQuoteResponse :=
  _getSwapQuoteForWethAsync env params true

/- Modelled from the spec: the token-metadata utilities
(src/utils/token_metadata_utils.ts, not under the provided sources) enter the
handler only through these three functions, kept abstract. -/
structure HandlerEnv where
  isETHSymbol : String → Bool
  isWETHSymbolOrAddress : String → Bool
  findTokenAddress : String → Except String String

/- swap_handlers.ts lines 164-176. -/
def findTokenAddressOrThrowApiError (henv : HandlerEnv) (address fieldName : String) :
    Except APIError String :=
  match henv.findTokenAddress address with
  | .ok a => .ok a
  | .error msg =>
    .error (.validationError [{ field := fieldName, code := .ValueOutOfRange, reason := msg }])

/- The parsed query parameters of swap_handlers.ts lines 34-44
(`GetSwapQuoteRequestParams` of src/types.ts). -/
structure GetSwapQuoteRequestParams where
  takerAddress : Option String
  sellToken : String
  buyToken : String
  sellAmount : Option ℚ
  buyAmount : Option ℚ
  slippagePercentage : ℚ
  gasPrice : Option ℚ
  excludedSources : Option (List ERC20BridgeSource)
  affiliateAddress : Option String
deriving DecidableEq

/- swap_handlers.ts lines 98-132: the catch block mapping a service error to
an API error. `buyAmountDefined` is the truthiness of the request's
`buyAmount` (a BigNumber, truthy exactly when defined). -/
def SwapHandlers.mapSwapQuoteError (buyAmountDefined : Bool) (e : ServiceError) : APIError :=
  match e with
  | .api apiErr => apiErr
  | .revert r => .revertAPIError r
  | .plain errorMessage =>
    if strStartsWith errorMessage SwapQuoterErrorInsufficientAssetLiquidity
        || strStartsWith errorMessage "NO_OPTIMAL_PATH" then
      .validationError [{ field := if buyAmountDefined then "buyAmount" else "sellAmount",
                          code := .ValueOutOfRange,
                          reason := SwapQuoterErrorInsufficientAssetLiquidity }]
    else if strStartsWith errorMessage SwapQuoterErrorAssetUnavailable then
      .validationError [{ field := "token", code := .ValueOutOfRange, reason := errorMessage }]
    else .internalServerError errorMessage

/- swap_handlers.ts lines 32-133. -/
def SwapHandlers.getSwapQuoteAsync (henv : HandlerEnv) (env : SwapEnv)
    (req : GetSwapQuoteRequestParams) : Except APIError GetSwapQuoteResponse :=
  let isETHSell := henv.isETHSymbol req.sellToken
  match findTokenAddressOrThrowApiError henv req.sellToken "sellToken" with
  | .error e => .error e
  | .ok sellTokenAddress =>
    match findTokenAddressOrThrowApiError henv req.buyToken "buyToken" with
    | .error e => .error e
    | .ok buyTokenAddress =>
      let isWrap := isETHSell && henv.isWETHSymbolOrAddress req.buyToken
      let isUnwrap := henv.isWETHSymbolOrAddress req.sellToken && henv.isETHSymbol req.buyToken
      if !isUnwrap && !isWrap && (sellTokenAddress == buyTokenAddress) then
        .error (.validationError (["buyToken", "sellToken"].map fun fieldName =>
          { field := fieldName, code := .RequiredField,
            reason := "buyToken and sellToken must be different" }))
      else if !(henv.isWETHSymbolOrAddress req.sellToken) && henv.isETHSymbol req.buyToken then
        .error (.validationError
          [{ field := "buyToken", code := .TokenNotSupported,
             reason := "Buying ETH is unsupported (set to \x27WETH\x27 to received wrapped Ether)" }])
      else
        let params : CalculateSwapQuoteParams :=
          { buyTokenAddress := buyTokenAddress
            sellTokenAddress := sellTokenAddress
            buyAmount := req.buyAmount
            sellAmount := req.sellAmount
            «from» := req.takerAddress
            isETHSell := isETHSell
            slippagePercentage := req.slippagePercentage
            gasPrice := req.gasPrice
            excludedSources := req.excludedSources
            affiliateAddress := req.affiliateAddress }
        let result :=
          if isUnwrap then getSwapQuoteForUnwrapAsync env params
          else if isWrap then getSwapQuoteForWrapAsync env params
          else calculateSwapQuoteAsync env params
        match result with
        | .ok swapQuote => .ok swapQuote
        | .error e => .error (SwapHandlers.mapSwapQuoteError req.buyAmount.isSome e)

/- A concrete order whose maker asset data decodes as bridge asset data. -/
def sampleOrder : SignedOrder :=
  { chainId := 1
    exchangeAddress := "0xexchange"
    makerAddress := "0xmaker"
    takerAddress := "0xtakeraddr"
    feeRecipientAddress := "0xoldfee"
    senderAddress := "0xsender"
    makerAssetAmount := 200
    takerAssetAmount := 100
    makerFee := 0
    takerFee := 0
    expirationTimeSeconds := 1000
    salt := 42
    makerAssetData := "0xbridge"
    takerAssetData := "0xtakerasset"
    makerFeeAssetData := "0x"
    takerFeeAssetData := "0x"
    signature := "0xsig" }

/- A concrete order whose maker asset data fails to decode. -/
def sampleBadOrder : SignedOrder :=
  { sampleOrder with makerAssetData := "0xundecodable", salt := 43 }

def sampleBestInfo : SwapQuoteInfo :=
  { feeTakerAssetAmount := 0
    takerAssetAmount := 90
    totalTakerAssetAmount := 100
    makerAssetAmount := 200
    protocolFeeInWeiAmount := 7
    gas := 10 }

def sampleWorstInfo : SwapQuoteInfo :=
  { feeTakerAssetAmount := 0
    takerAssetAmount := 95
    totalTakerAssetAmount := 100
    makerAssetAmount := 180
    protocolFeeInWeiAmount := 7
    gas := 10 }

def sampleQuote : SwapQuote :=
  { takerAssetData := "0xtakerasset"
    makerAssetData := "0xmakerasset"
    gasPrice := 5
    orders := [sampleOrder, sampleBadOrder]
    bestCaseQuoteInfo := sampleBestInfo
    worstCaseQuoteInfo := sampleWorstInfo
    sourceBreakdown := fun s => if s = ERC20BridgeSource.Uniswap then some (1 / 2) else none }

def sampleCalldataInfo : CalldataInfo :=
  { calldataHexString := "0xabcd"
    ethAmount := 3
    toAddress := "0xexchange" }

/- A concrete environment in which every collaborator succeeds. -/
def sampleEnv : SwapEnv :=
  { GAS_LIMIT_BUFFER_PERCENTAGE := 1 / 10
    FEE_RECIPIENT_ADDRESS := "0xfee"
    WRAP_QUOTE_GAS := 21
    UNWRAP_QUOTE_GAS := 25
    PERCENTAGE_SIG_DIGITS := 4
    ONE_SECOND_MS := 4
    nowMs := 12
    wethAddress := "0xweth"
    wethDepositData := "0xd0e30db0"
    wethWithdrawData := fun _ => "0x2e1a7d4d"
    getGasPriceEstimation := .ok 5
    getMarketSellSwapQuote := fun _ _ _ _ => .ok sampleQuote
    getMarketBuySwapQuote := fun _ _ _ _ => .ok sampleQuote
    getCalldataOrThrow := fun _ _ => .ok sampleCalldataInfo
    getBalanceInWei := fun _ => 50
    estimateGas := fun _ => .ok 100
    ethCall := fun _ => .ok "0x"
    decodeThrownErrorAsRevertError := fun _ => "decoded-revert"
    decodeRevertError := fun _ => none
    decodeAssetData := fun s => if s = "0xbridge" then some "bridge" else
      if s = "0xundecodable" then none else some "erc20"
    isBridgeAssetData := fun d => d = "bridge"
    encodeZeroExAPIAffiliate := fun a _ => "0xAFF" ++ a
    fetchTokenDecimals := fun _ => 2 }

/- Market-sell parameters without a taker address. -/
def sampleParams : CalculateSwapQuoteParams :=
  { buyTokenAddress := "0xbuy"
    sellTokenAddress := "0xsell"
    buyAmount := none
    sellAmount := some 100
    «from» := none
    isETHSell := false
    slippagePercentage := 3 / 100
    gasPrice := some 5
    excludedSources := none
    affiliateAddress := none }

/- The same parameters with a non-empty taker address supplied. -/
def sampleParamsFrom : CalculateSwapQuoteParams :=
  { sampleParams with «from» := some "0xtaker" }

/- The same parameters with the empty string as taker address. -/
def sampleParamsEmptyFrom : CalculateSwapQuoteParams :=
  { sampleParams with «from» := some "" }

/- Wrap parameters whose affiliate address is provided but empty. -/
def sampleParamsEmptyAffiliate : CalculateSwapQuoteParams :=
  { sampleParams with sellAmount := some 40, affiliateAddress := some "" }

/- Environment whose `eth_call` always throws. -/
def sampleEnvCallThrows : SwapEnv :=
  { sampleEnv with ethCall := fun _ => .error (.plain "rpc boom") }

/- Environment whose `eth_call` result decodes as a revert error. -/
def sampleEnvCallReverts : SwapEnv :=
  { sampleEnv with decodeRevertError := fun _ => some "revert-payload" }

/- Environment whose gas estimation rejects while `eth_call` succeeds. -/
def sampleEnvGasFails : SwapEnv :=
  { sampleEnv with estimateGas := fun _ => .error (.plain "gas estimation failed") }

/- Modelled from the spec: a concrete instantiation of the token-metadata
utilities, with the usual `ETH`/`WETH` pseudo-token symbols. -/
def sampleHandlerEnv : HandlerEnv :=
  { isETHSymbol := fun s => s == "ETH"
    isWETHSymbolOrAddress := fun s => s == "WETH" || s == "0xweth"
    findTokenAddress := fun s =>
      if s == "ETH" then .ok "0xeee"
      else if s == "WETH" then .ok "0xweth"
      else if s == "DAI" then .ok "0xdai"
      else .error ("Could not find token " ++ s) }

/- A request buying and selling the same `ETH` pseudo-token. -/
def sampleReqEthEth : GetSwapQuoteRequestParams :=
  { takerAddress := none
    sellToken := "ETH"
    buyToken := "ETH"
    sellAmount := some 100
    buyAmount := none
    slippagePercentage := 3 / 100
    gasPrice := some 5
    excludedSources := none
    affiliateAddress := none }

/- Wrap parameters with a definite amount for the WETH paths. -/
def sampleParamsWeth : CalculateSwapQuoteParams :=
  { sampleParams with sellAmount := some 40 }

/- Parameters with neither a sell amount nor a buy amount. -/
def sampleParamsNoAmounts : CalculateSwapQuoteParams :=
  { sampleParams with sellAmount := none, buyAmount := none }

/- The market-sell response computed for `sampleParams` (no taker address, so
the pre-buffer gas estimate is the worst-case quote gas). -/
def sampleSwapResponse : GetSwapQuoteResponse :=
  mkSwapQuoteResponse sampleEnv sampleParams
    (_attributeSwapQuoteOrders sampleEnv sampleQuote) sampleCalldataInfo 10

/- The market-sell response computed for `sampleParamsFrom` (the on-chain
estimate 100 dominates the worst-case gas 10). -/
def sampleSwapResponseFrom : GetSwapQuoteResponse :=
  mkSwapQuoteResponse sampleEnv sampleParamsFrom
    (_attributeSwapQuoteOrders sampleEnv sampleQuote) sampleCalldataInfo 100

/- A request wrapping a same-token pair that is neither a wrap nor an unwrap. -/
def sampleReqDaiDai : GetSwapQuoteRequestParams :=
  { sampleReqEthEth with sellToken := "DAI", buyToken := "DAI" }

/- A request buying ETH against a non-WETH sell token. -/
def sampleReqDaiEth : GetSwapQuoteRequestParams :=
  { sampleReqEthEth with sellToken := "DAI", buyToken := "ETH" }

deriving instance DecidableEq for Except

set_option maxRecDepth 40000

/- The wrap response computed for `sampleParamsWeth`. -/
def sampleWrapResponse : GetSwapQuoteResponse :=
  { price := 1
    guaranteedPrice := 1
    «to» := "0xweth"
    data := "0xd0e30db0AFF0xfee"
    value := 40
    gas := 21
    «from» := none
    gasPrice := 5
    protocolFee := 0
    buyTokenAddress := "0xbuy"
    sellTokenAddress := "0xsell"
    buyAmount := 40
    sellAmount := 40
    sources := []
    orders := [] }

/- The unwrap response computed for `sampleParamsWeth`. -/
def sampleUnwrapResponse : GetSwapQuoteResponse :=
  { sampleWrapResponse with
    data := "0x2e1a7d4dAFF0xfee"
    value := 0
    gas := 25 }

theorem foldl_append_map {α β : Type} (f : α → β) (l : List α) (acc : List β) :
    l.foldl (fun a s => a ++ [f s]) acc = acc ++ l.map f := by
  induction l generalizing acc with
  | nil => simp
  | cons x xs ih => simp [ih]

theorem toPrecisionQ_zero (sd : ℕ) : toPrecisionQ sd 0 = 0 := by
  simp [toPrecisionQ]

/-- C10: for every source breakdown, `_convertSourceBreakdownToArray` returns
exactly one entry per member of the `ERC20BridgeSource` enumeration: sources
absent from the input breakdown get proportion zero, sources present get their
percentage rounded to `PERCENTAGE_SIG_DIGITS` significant digits, and the
`Native` source is renamed to `0x` while every other source name is kept. -/
theorem source_breakdown_array (env : SwapEnv)
    (sourceBreakdown : ERC20BridgeSource → Option ℚ) :
    _convertSourceBreakdownToArray env sourceBreakdown =
      allSources.map fun source =>
        { name := if source = ERC20BridgeSource.Native then "0x" else sourceName source
          proportion :=
            match sourceBreakdown source with
            | none => 0
            | some percentage => toPrecisionQ env.PERCENTAGE_SIG_DIGITS percentage } := by
  unfold _convertSourceBreakdownToArray
  rw [foldl_append_map]
  simp only [List.nil_append]
  apply List.map_congr_left
  intro s _
  cases hbd : sourceBreakdown s with
  | none => simp [toPrecisionQ_zero]
  | some p => simp

/-- C9: `_attributeSwapQuoteOrders` preserves the number and order of the
quote's orders and changes at most the `feeRecipientAddress` field: an order
whose maker asset data decodes to bridge asset data gets
`FEE_RECIPIENT_ADDRESS`, every other order (including those whose asset data
fails to decode) and every other field of every order and of the quote itself
is returned unchanged. -/
theorem attribute_orders_frame (env : SwapEnv) (q : SwapQuote) :
    (_attributeSwapQuoteOrders env q).orders.length = q.orders.length ∧
    (_attributeSwapQuoteOrders env q).takerAssetData = q.takerAssetData ∧
    (_attributeSwapQuoteOrders env q).makerAssetData = q.makerAssetData ∧
    (_attributeSwapQuoteOrders env q).gasPrice = q.gasPrice ∧
    (_attributeSwapQuoteOrders env q).bestCaseQuoteInfo = q.bestCaseQuoteInfo ∧
    (_attributeSwapQuoteOrders env q).worstCaseQuoteInfo = q.worstCaseQuoteInfo ∧
    (_attributeSwapQuoteOrders env q).sourceBreakdown = q.sourceBreakdown ∧
    ∀ i (h1 : i < (_attributeSwapQuoteOrders env q).orders.length)
      (h2 : i < q.orders.length),
      ((_attributeSwapQuoteOrders env q).orders.get ⟨i, h1⟩).chainId =
        (q.orders.get ⟨i, h2⟩).chainId ∧
      ((_attributeSwapQuoteOrders env q).orders.get ⟨i, h1⟩).exchangeAddress =
        (q.orders.get ⟨i, h2⟩).exchangeAddress ∧
      ((_attributeSwapQuoteOrders env q).orders.get ⟨i, h1⟩).makerAddress =
        (q.orders.get ⟨i, h2⟩).makerAddress ∧
      ((_attributeSwapQuoteOrders env q).orders.get ⟨i, h1⟩).takerAddress =
        (q.orders.get ⟨i, h2⟩).takerAddress ∧
      ((_attributeSwapQuoteOrders env q).orders.get ⟨i, h1⟩).senderAddress =
        (q.orders.get ⟨i, h2⟩).senderAddress ∧
      ((_attributeSwapQuoteOrders env q).orders.get ⟨i, h1⟩).makerAssetAmount =
        (q.orders.get ⟨i, h2⟩).makerAssetAmount ∧
      ((_attributeSwapQuoteOrders env q).orders.get ⟨i, h1⟩).takerAssetAmount =
        (q.orders.get ⟨i, h2⟩).takerAssetAmount ∧
      ((_attributeSwapQuoteOrders env q).orders.get ⟨i, h1⟩).makerFee =
        (q.orders.get ⟨i, h2⟩).makerFee ∧
      ((_attributeSwapQuoteOrders env q).orders.get ⟨i, h1⟩).takerFee =
        (q.orders.get ⟨i, h2⟩).takerFee ∧
      ((_attributeSwapQuoteOrders env q).orders.get ⟨i, h1⟩).expirationTimeSeconds =
        (q.orders.get ⟨i, h2⟩).expirationTimeSeconds ∧
      ((_attributeSwapQuoteOrders env q).orders.get ⟨i, h1⟩).salt =
        (q.orders.get ⟨i, h2⟩).salt ∧
      ((_attributeSwapQuoteOrders env q).orders.get ⟨i, h1⟩).makerAssetData =
        (q.orders.get ⟨i, h2⟩).makerAssetData ∧
      ((_attributeSwapQuoteOrders env q).orders.get ⟨i, h1⟩).takerAssetData =
        (q.orders.get ⟨i, h2⟩).takerAssetData ∧
      ((_attributeSwapQuoteOrders env q).orders.get ⟨i, h1⟩).makerFeeAssetData =
        (q.orders.get ⟨i, h2⟩).makerFeeAssetData ∧
      ((_attributeSwapQuoteOrders env q).orders.get ⟨i, h1⟩).takerFeeAssetData =
        (q.orders.get ⟨i, h2⟩).takerFeeAssetData ∧
      ((_attributeSwapQuoteOrders env q).orders.get ⟨i, h1⟩).signature =
        (q.orders.get ⟨i, h2⟩).signature ∧
      ((_attributeSwapQuoteOrders env q).orders.get ⟨i, h1⟩).feeRecipientAddress =
        (match env.decodeAssetData (q.orders.get ⟨i, h2⟩).makerAssetData with
         | some d =>
           if env.isBridgeAssetData d then env.FEE_RECIPIENT_ADDRESS
           else (q.orders.get ⟨i, h2⟩).feeRecipientAddress
         | none => (q.orders.get ⟨i, h2⟩).feeRecipientAddress) := by
  refine ⟨by simp [_attributeSwapQuoteOrders], rfl, rfl, rfl, rfl, rfl, rfl, ?_⟩
  intro i h1 h2
  simp only [_attributeSwapQuoteOrders, List.get_eq_getElem, List.getElem_map]
  cases hd : env.decodeAssetData (q.orders[i].makerAssetData) with
  | none => simp [hd]
  | some d =>
    by_cases hb : env.isBridgeAssetData d
    · simp [hd, hb]
    · simp [hd, hb]

/-- C8: every wrap or unwrap quote has price and guaranteed price one, zero
protocol fee, buy and sell amounts equal to the requested amount, empty
sources and orders, the fixed `WRAP_QUOTE_GAS`/`UNWRAP_QUOTE_GAS` gas, value
equal to the amount for a wrap and zero for an unwrap, and the WETH contract
address as destination. -/
theorem weth_quote_fields (env : SwapEnv) (params : CalculateSwapQuoteParams)
    (isUnwrap : Bool) (resp : GetSwapQuoteResponse) (amt : ℚ)
    (hamt : requestedWethAmount params = some amt)
    (h : _getSwapQuoteForWethAsync env params isUnwrap = .ok resp) :
    resp.price = 1 ∧ resp.guaranteedPrice = 1 ∧ resp.protocolFee = 0 ∧
    resp.buyAmount = amt ∧ resp.sellAmount = amt ∧
    resp.sources = [] ∧ resp.orders = [] ∧
    resp.gas = (if isUnwrap then env.UNWRAP_QUOTE_GAS else env.WRAP_QUOTE_GAS) ∧
    resp.value = (if isUnwrap then 0 else amt) ∧
    resp.«to» = env.wethAddress := by
  unfold _getSwapQuoteForWethAsync at h
  simp only [hamt] at h
  cases hgp : params.gasPrice with
  | some gp =>
    simp only [hgp] at h
    injection h with h
    subst h
    exact ⟨rfl, rfl, rfl, rfl, rfl, rfl, rfl, rfl, rfl, rfl⟩
  | none =>
    simp only [hgp] at h
    cases hge : env.getGasPriceEstimation with
    | error e =>
      simp only [hge] at h
      exact Except.noConfusion h
    | ok gp =>
      simp only [hge] at h
      injection h with h
      subst h
      exact ⟨rfl, rfl, rfl, rfl, rfl, rfl, rfl, rfl, rfl, rfl⟩

/- Decomposition of a successful `calculateSwapQuoteAsync` run into its three
fallible stages. -/
theorem calculateSwapQuoteAsync_ok_iff (env : SwapEnv) (params : CalculateSwapQuoteParams)
    (resp : GetSwapQuoteResponse) :
    calculateSwapQuoteAsync env params = .ok resp ↔
      ∃ q ci preBufferGas,
        requestedQuote env params = .ok q ∧
        env.getCalldataOrThrow (_attributeSwapQuoteOrders env q)
          (extensionContractTypeOf params) = .ok ci ∧
        suggestedGasBeforeBuffer env params (_attributeSwapQuoteOrders env q) ci =
          .ok preBufferGas ∧
        resp = mkSwapQuoteResponse env params (_attributeSwapQuoteOrders env q) ci
          preBufferGas := by
  constructor
  · intro h
    unfold calculateSwapQuoteAsync at h
    cases hq : requestedQuote env params with
    | error e => rw [hq] at h; exact Except.noConfusion h
    | ok q =>
      rw [hq] at h
      simp only at h
      cases hci : env.getCalldataOrThrow (_attributeSwapQuoteOrders env q)
          (extensionContractTypeOf params) with
      | error e => rw [hci] at h; exact Except.noConfusion h
      | ok ci =>
        rw [hci] at h
        simp only at h
        cases hg : suggestedGasBeforeBuffer env params (_attributeSwapQuoteOrders env q) ci with
        | error e => rw [hg] at h; exact Except.noConfusion h
        | ok preBufferGas =>
          rw [hg] at h
          simp only at h
          injection h with h
          exact ⟨q, ci, preBufferGas, rfl, hci, hg, h.symm⟩
  · rintro ⟨q, ci, preBufferGas, h1, h2, h3, rfl⟩
    unfold calculateSwapQuoteAsync
    rw [h1]
    simp only
    rw [h2]
    simp only
    rw [h3]

/- The pre-buffer gas estimate, when it exists, is the worst-case quote gas
without a (truthy) taker address and the maximum of the `eth_estimateGas`
result (0 on failure) and the worst-case gas with one. -/
theorem suggestedGas_value (env : SwapEnv) (params : CalculateSwapQuoteParams)
    (aq : SwapQuote) (ci : CalldataInfo) (g : ℚ)
    (h : suggestedGasBeforeBuffer env params aq ci = .ok g) :
    g = (match presentString params.«from» with
         | none => aq.worstCaseQuoteInfo.gas
         | some f =>
           max (gasEstimateOrZero env (assembledTxData env params aq ci f))
             aq.worstCaseQuoteInfo.gas) := by
  unfold suggestedGasBeforeBuffer at h
  cases hf : presentString params.«from» with
  | none =>
    rw [hf] at h
    injection h with h
    simpa using h.symm
  | some f =>
    rw [hf] at h
    simp only at h ⊢
    cases hest : _estimateGasOrThrowRevertErrorAsync env (assembledTxData env params aq ci f) with
    | error e =>
      rw [hest] at h
      exact Except.noConfusion h
    | ok ge =>
      rw [hest] at h
      injection h with h
      unfold _estimateGasOrThrowRevertErrorAsync at hest
      cases hrev : _throwIfCallIsRevertErrorAsync env (assembledTxData env params aq ci f) with
      | error e =>
        rw [hrev] at hest
        exact Except.noConfusion hest
      | ok u =>
        rw [hrev] at hest
        injection hest with hest
        rw [← h, ← hest]

/-- C1 (amended): for every successful call to `calculateSwapQuoteAsync`, the
`gas` field of the returned quote equals the gas estimate multiplied by
`(1 + GAS_LIMIT_BUFFER_PERCENTAGE)` and rounded to an integer, where the
estimate is the worst-case quote's gas when no truthy (non-empty) `from`
address is supplied, and the maximum of the on-chain `eth_estimateGas` result
(0 if estimation fails) and the worst-case gas when a non-empty `from` is
supplied. -/
theorem swap_gas_is_buffered_estimate (env : SwapEnv) (params : CalculateSwapQuoteParams)
    (resp : GetSwapQuoteResponse)
    (h : calculateSwapQuoteAsync env params = .ok resp) :
    ∃ q ci,
      requestedQuote env params = .ok q ∧
      env.getCalldataOrThrow (_attributeSwapQuoteOrders env q)
        (extensionContractTypeOf params) = .ok ci ∧
      resp.gas = integerValue
        ((match presentString params.«from» with
          | none => q.worstCaseQuoteInfo.gas
          | some f =>
            max (gasEstimateOrZero env
                (assembledTxData env params (_attributeSwapQuoteOrders env q) ci f))
              q.worstCaseQuoteInfo.gas) *
         (env.GAS_LIMIT_BUFFER_PERCENTAGE + 1)) := by
  obtain ⟨q, ci, g, h1, h2, h3, rfl⟩ := (calculateSwapQuoteAsync_ok_iff env params resp).mp h
  refine ⟨q, ci, h1, h2, ?_⟩
  have hg := suggestedGas_value env params (_attributeSwapQuoteOrders env q) ci g h3
  show integerValue (g * (env.GAS_LIMIT_BUFFER_PERCENTAGE + 1)) = _
  rw [hg]
  rfl

/-- C4: for every quote from `calculateSwapQuoteAsync`, when `buyAmount` is
undefined the price is the best-case maker amount in buy-token units divided
by the best-case total taker amount in sell-token units, rounded to
`sellTokenDecimals` decimal places; when `buyAmount` is defined it is the
reciprocal ratio rounded to `buyTokenDecimals` decimal places;
`guaranteedPrice` is computed the same way from the worst-case amounts. -/
theorem swap_price_formulas (env : SwapEnv) (params : CalculateSwapQuoteParams)
    (resp : GetSwapQuoteResponse)
    (h : calculateSwapQuoteAsync env params = .ok resp) :
    ∃ q, requestedQuote env params = .ok q ∧
      resp.price =
        (match params.buyAmount with
         | none =>
           decimalPlaces (env.fetchTokenDecimals params.sellTokenAddress)
             (toUnitAmount q.bestCaseQuoteInfo.makerAssetAmount
                (env.fetchTokenDecimals params.buyTokenAddress) /
              toUnitAmount q.bestCaseQuoteInfo.totalTakerAssetAmount
                (env.fetchTokenDecimals params.sellTokenAddress))
         | some _ =>
           decimalPlaces (env.fetchTokenDecimals params.buyTokenAddress)
             (toUnitAmount q.bestCaseQuoteInfo.totalTakerAssetAmount
                (env.fetchTokenDecimals params.sellTokenAddress) /
              toUnitAmount q.bestCaseQuoteInfo.makerAssetAmount
                (env.fetchTokenDecimals params.buyTokenAddress))) ∧
      resp.guaranteedPrice =
        (match params.buyAmount with
         | none =>
           decimalPlaces (env.fetchTokenDecimals params.sellTokenAddress)
             (toUnitAmount q.worstCaseQuoteInfo.makerAssetAmount
                (env.fetchTokenDecimals params.buyTokenAddress) /
              toUnitAmount q.worstCaseQuoteInfo.totalTakerAssetAmount
                (env.fetchTokenDecimals params.sellTokenAddress))
         | some _ =>
           decimalPlaces (env.fetchTokenDecimals params.buyTokenAddress)
             (toUnitAmount q.worstCaseQuoteInfo.totalTakerAssetAmount
                (env.fetchTokenDecimals params.sellTokenAddress) /
              toUnitAmount q.worstCaseQuoteInfo.makerAssetAmount
                (env.fetchTokenDecimals params.buyTokenAddress))) := by
  obtain ⟨q, ci, g, h1, h2, h3, rfl⟩ := (calculateSwapQuoteAsync_ok_iff env params resp).mp h
  refine ⟨q, h1, ?_, ?_⟩ <;>
    cases hb : params.buyAmount <;>
      simp only [mkSwapQuoteResponse, hb] <;> rfl

/- An error produced by the pre-buffer gas stage is the overall result. -/
theorem calc_error_of_suggestedGas_error (env : SwapEnv) (params : CalculateSwapQuoteParams)
    (q : SwapQuote) (ci : CalldataInfo) (r : ServiceError)
    (hq : requestedQuote env params = .ok q)
    (hci : env.getCalldataOrThrow (_attributeSwapQuoteOrders env q)
      (extensionContractTypeOf params) = .ok ci)
    (h : suggestedGasBeforeBuffer env params (_attributeSwapQuoteOrders env q) ci = .error r) :
    calculateSwapQuoteAsync env params = .error r := by
  unfold calculateSwapQuoteAsync
  rw [hq]
  simp only
  rw [hci]
  simp only
  rw [h]

/-- C2 (amended): for every call to `calculateSwapQuoteAsync` with a truthy
(non-empty) `from` address, if the `eth_call` of the assembled transaction
reverts -- either by the RPC call throwing, or by the call result decoding as
a `RevertError` -- then `calculateSwapQuoteAsync` throws a revert error and
returns no quote; a gas-estimation failure alone (while the `eth_call` does
not revert) does not make the operation fail, the estimate is instead taken
as 0. -/
theorem swap_revert_behavior (env : SwapEnv) (params : CalculateSwapQuoteParams)
    (f : String) (q : SwapQuote) (ci : CalldataInfo)
    (hf : presentString params.«from» = some f)
    (hq : requestedQuote env params = .ok q)
    (hci : env.getCalldataOrThrow (_attributeSwapQuoteOrders env q)
      (extensionContractTypeOf params) = .ok ci) :
    (∀ e, env.ethCall (assembledTxData env params (_attributeSwapQuoteOrders env q) ci f) =
        .error e →
      calculateSwapQuoteAsync env params =
        .error (.revert (env.decodeThrownErrorAsRevertError e))) ∧
    (∀ s r, env.ethCall (assembledTxData env params (_attributeSwapQuoteOrders env q) ci f) =
        .ok s →
      env.decodeRevertError s = some r →
      calculateSwapQuoteAsync env params = .error (.revert r)) ∧
    (∀ s e2, env.ethCall (assembledTxData env params (_attributeSwapQuoteOrders env q) ci f) =
        .ok s →
      env.decodeRevertError s = none →
      env.estimateGas (assembledTxData env params (_attributeSwapQuoteOrders env q) ci f) =
        .error e2 →
      ∃ resp, calculateSwapQuoteAsync env params = .ok resp ∧
        resp.gas = integerValue
          (max 0 q.worstCaseQuoteInfo.gas * (env.GAS_LIMIT_BUFFER_PERCENTAGE + 1))) := by
  refine ⟨?_, ?_, ?_⟩
  · intro e hcall
    apply calc_error_of_suggestedGas_error env params q ci _ hq hci
    unfold suggestedGasBeforeBuffer
    rw [hf]
    simp only
    unfold _estimateGasOrThrowRevertErrorAsync _throwIfCallIsRevertErrorAsync
    rw [hcall]
  · intro s r hcall hdec
    apply calc_error_of_suggestedGas_error env params q ci _ hq hci
    unfold suggestedGasBeforeBuffer
    rw [hf]
    simp only
    unfold _estimateGasOrThrowRevertErrorAsync _throwIfCallIsRevertErrorAsync
    rw [hcall]
    simp only
    rw [hdec]
  · intro s e2 hcall hdec hgas
    have hzero : gasEstimateOrZero env
        (assembledTxData env params (_attributeSwapQuoteOrders env q) ci f) = 0 := by
      unfold gasEstimateOrZero
      rw [hgas]
    have hsg : suggestedGasBeforeBuffer env params (_attributeSwapQuoteOrders env q) ci =
        .ok (max (gasEstimateOrZero env
          (assembledTxData env params (_attributeSwapQuoteOrders env q) ci f))
          (_attributeSwapQuoteOrders env q).worstCaseQuoteInfo.gas) := by
      unfold suggestedGasBeforeBuffer
      rw [hf]
      simp only
      unfold _estimateGasOrThrowRevertErrorAsync _throwIfCallIsRevertErrorAsync
      rw [hcall]
      simp only
      rw [hdec]
    refine ⟨mkSwapQuoteResponse env params (_attributeSwapQuoteOrders env q) ci
      (max (gasEstimateOrZero env
        (assembledTxData env params (_attributeSwapQuoteOrders env q) ci f))
        (_attributeSwapQuoteOrders env q).worstCaseQuoteInfo.gas), ?_, ?_⟩
    · exact (calculateSwapQuoteAsync_ok_iff env params _).mpr ⟨q, ci, _, hq, hci, hsg, rfl⟩
    · show integerValue _ = _
      rw [hzero]
      rfl

/- The data field of a wrap/unwrap response is the affiliated WETH calldata. -/
theorem weth_data_value (env : SwapEnv) (params : CalculateSwapQuoteParams)
    (isUnwrap : Bool) (resp : GetSwapQuoteResponse) (amt : ℚ)
    (hamt : requestedWethAmount params = some amt)
    (h : _getSwapQuoteForWethAsync env params isUnwrap = .ok resp) :
    resp.data = _attributeCallData env
      (if isUnwrap then env.wethWithdrawData amt else env.wethDepositData)
      params.affiliateAddress := by
  unfold _getSwapQuoteForWethAsync at h
  simp only [hamt] at h
  cases hgp : params.gasPrice with
  | some gp =>
    simp only [hgp] at h
    injection h with h
    subst h
    rfl
  | none =>
    simp only [hgp] at h
    cases hge : env.getGasPriceEstimation with
    | error e =>
      simp only [hge] at h
      exact Except.noConfusion h
    | ok gp =>
      simp only [hge] at h
      injection h with h
      subst h
      rfl

/-- C3 (amended): for every quote produced (swap, wrap and unwrap alike), the
`data` field of the response equals the calldata obtained from the quote
consumer (or WETH contract) concatenated with the ABI encoding of a call
`ZeroExAPIAffiliate(affiliate, timestamp)` with its leading `0x` stripped,
where `affiliate` is the request's `affiliateAddress` when a truthy
(non-empty) one was provided and `FEE_RECIPIENT_ADDRESS` otherwise; in
particular the original calldata is always a prefix of the returned data. -/
theorem affiliated_calldata_shape (env : SwapEnv) (params : CalculateSwapQuoteParams)
    (resp : GetSwapQuoteResponse) :
    (calculateSwapQuoteAsync env params = .ok resp →
      ∃ q ci, requestedQuote env params = .ok q ∧
        env.getCalldataOrThrow (_attributeSwapQuoteOrders env q)
          (extensionContractTypeOf params) = .ok ci ∧
        resp.data = ci.calldataHexString ++
          (env.encodeZeroExAPIAffiliate
            (match presentString params.affiliateAddress with
             | some a => a
             | none => env.FEE_RECIPIENT_ADDRESS)
            (integerValue (env.nowMs / env.ONE_SECOND_MS))).drop 2 ∧
        ∃ rest, resp.data = ci.calldataHexString ++ rest) ∧
    (getSwapQuoteForWrapAsync env params = .ok resp →
      ∃ amt, requestedWethAmount params = some amt ∧
        resp.data = env.wethDepositData ++
          (env.encodeZeroExAPIAffiliate
            (match presentString params.affiliateAddress with
             | some a => a
             | none => env.FEE_RECIPIENT_ADDRESS)
            (integerValue (env.nowMs / env.ONE_SECOND_MS))).drop 2 ∧
        ∃ rest, resp.data = env.wethDepositData ++ rest) ∧
    (getSwapQuoteForUnwrapAsync env params = .ok resp →
      ∃ amt, requestedWethAmount params = some amt ∧
        resp.data = env.wethWithdrawData amt ++
          (env.encodeZeroExAPIAffiliate
            (match presentString params.affiliateAddress with
             | some a => a
             | none => env.FEE_RECIPIENT_ADDRESS)
            (integerValue (env.nowMs / env.ONE_SECOND_MS))).drop 2 ∧
        ∃ rest, resp.data = env.wethWithdrawData amt ++ rest) := by
  refine ⟨?_, ?_, ?_⟩
  · intro h
    obtain ⟨q, ci, g, h1, h2, h3, rfl⟩ := (calculateSwapQuoteAsync_ok_iff env params resp).mp h
    exact ⟨q, ci, h1, h2, rfl, ⟨_, rfl⟩⟩
  · intro h
    cases hamt : requestedWethAmount params with
    | none =>
      unfold getSwapQuoteForWrapAsync _getSwapQuoteForWethAsync at h
      rw [hamt] at h
      exact Except.noConfusion h
    | some amt =>
      have hd := weth_data_value env params false resp amt hamt h
      exact ⟨amt, rfl, hd, ⟨_, hd⟩⟩
  · intro h
    cases hamt : requestedWethAmount params with
    | none =>
      unfold getSwapQuoteForUnwrapAsync _getSwapQuoteForWethAsync at h
      rw [hamt] at h
      exact Except.noConfusion h
    | some amt =>
      have hd := weth_data_value env params true resp amt hamt h
      exact ⟨amt, rfl, hd, ⟨_, hd⟩⟩

/- Errors of the pre-buffer gas stage are always revert errors. -/
theorem suggestedGas_error_is_revert (env : SwapEnv) (params : CalculateSwapQuoteParams)
    (aq : SwapQuote) (ci : CalldataInfo) (e : ServiceError)
    (h : suggestedGasBeforeBuffer env params aq ci = .error e) :
    ∃ r, e = ServiceError.revert r := by
  unfold suggestedGasBeforeBuffer at h
  cases hf : presentString params.«from» with
  | none =>
    rw [hf] at h
    exact Except.noConfusion h
  | some f =>
    rw [hf] at h
    simp only at h
    cases hest : _estimateGasOrThrowRevertErrorAsync env (assembledTxData env params aq ci f) with
    | ok ge =>
      rw [hest] at h
      exact Except.noConfusion h
    | error e2 =>
      rw [hest] at h
      injection h with h
      subst h
      unfold _estimateGasOrThrowRevertErrorAsync _throwIfCallIsRevertErrorAsync at hest
      cases hcall : env.ethCall (assembledTxData env params aq ci f) with
      | error e3 =>
        rw [hcall] at hest
        injection hest with hest
        exact ⟨_, hest.symm⟩
      | ok s =>
        rw [hcall] at hest
        simp only at hest
        cases hdec : env.decodeRevertError s with
        | some r =>
          rw [hdec] at hest
          injection hest with hest
          exact ⟨r, hest.symm⟩
        | none =>
          rw [hdec] at hest
          exact Except.noConfusion hest

/- The wrap/unwrap amount is undefined exactly when both request amounts are. -/
theorem requestedWethAmount_none (params : CalculateSwapQuoteParams)
    (h : requestedWethAmount params = none) :
    params.buyAmount = none ∧ params.sellAmount = none := by
  unfold requestedWethAmount at h
  cases hb : params.buyAmount with
  | some a =>
    rw [hb] at h
    exact Option.noConfusion h
  | none =>
    rw [hb] at h
    exact ⟨rfl, h⟩

/-- C7: both `calculateSwapQuoteAsync` and the wrap/unwrap quote path throw an
error with message `sellAmount or buyAmount required` exactly when both
`sellAmount` and `buyAmount` are undefined (for the converse direction the
collaborators are assumed not to produce that very error themselves); when
`sellAmount` is defined `calculateSwapQuoteAsync` requests a market-sell quote
(even if `buyAmount` is also defined), and when only `buyAmount` is defined it
requests a market-buy quote. -/
theorem amount_required_behavior (env : SwapEnv) (params : CalculateSwapQuoteParams) :
    (params.sellAmount = none → params.buyAmount = none →
      calculateSwapQuoteAsync env params = .error (.plain "sellAmount or buyAmount required") ∧
      ∀ isUnwrap, _getSwapQuoteForWethAsync env params isUnwrap =
        .error (.plain "sellAmount or buyAmount required")) ∧
    ((params.sellAmount ≠ none ∨ params.buyAmount ≠ none) →
      (∀ b s a o, env.getMarketSellSwapQuote b s a o ≠
        .error (.plain "sellAmount or buyAmount required")) →
      (∀ b s a o, env.getMarketBuySwapQuote b s a o ≠
        .error (.plain "sellAmount or buyAmount required")) →
      (∀ qq t, env.getCalldataOrThrow qq t ≠
        .error (.plain "sellAmount or buyAmount required")) →
      (env.getGasPriceEstimation ≠ .error (.plain "sellAmount or buyAmount required")) →
      calculateSwapQuoteAsync env params ≠ .error (.plain "sellAmount or buyAmount required") ∧
      ∀ isUnwrap, _getSwapQuoteForWethAsync env params isUnwrap ≠
        .error (.plain "sellAmount or buyAmount required")) ∧
    (∀ a, params.sellAmount = some a →
      requestedQuote env params =
        env.getMarketSellSwapQuote params.buyTokenAddress params.sellTokenAddress a
          (assetSwapperOptsOf params)) ∧
    (∀ a, params.sellAmount = none → params.buyAmount = some a →
      requestedQuote env params =
        env.getMarketBuySwapQuote params.buyTokenAddress params.sellTokenAddress a
          (assetSwapperOptsOf params)) := by
  refine ⟨?_, ?_, ?_, ?_⟩
  · intro hs hb
    have hrq : requestedQuote env params = .error (.plain "sellAmount or buyAmount required") := by
      unfold requestedQuote
      rw [hs]
      simp only
      rw [hb]
    have hamt : requestedWethAmount params = none := by
      unfold requestedWethAmount
      rw [hb]
      simp only
      exact hs
    constructor
    · unfold calculateSwapQuoteAsync
      rw [hrq]
    · intro isUnwrap
      unfold _getSwapQuoteForWethAsync
      rw [hamt]
  · intro hne hs hb hc hg
    constructor
    · intro habs
      cases hrq : requestedQuote env params with
      | error e =>
        unfold calculateSwapQuoteAsync at habs
        rw [hrq] at habs
        injection habs with habs
        subst habs
        unfold requestedQuote at hrq
        cases hsell : params.sellAmount with
        | some a =>
          rw [hsell] at hrq
          exact hs _ _ _ _ hrq
        | none =>
          rw [hsell] at hrq
          simp only at hrq
          cases hbuy : params.buyAmount with
          | some b =>
            rw [hbuy] at hrq
            exact hb _ _ _ _ hrq
          | none =>
            rcases hne with hne | hne
            · exact hne hsell
            · exact hne hbuy
      | ok q =>
        unfold calculateSwapQuoteAsync at habs
        rw [hrq] at habs
        simp only at habs
        cases hci : env.getCalldataOrThrow (_attributeSwapQuoteOrders env q)
            (extensionContractTypeOf params) with
        | error e =>
          rw [hci] at habs
          injection habs with habs
          subst habs
          exact hc _ _ hci
        | ok ci =>
          rw [hci] at habs
          simp only at habs
          cases hsg : suggestedGasBeforeBuffer env params (_attributeSwapQuoteOrders env q) ci with
          | error e =>
            rw [hsg] at habs
            injection habs with habs
            obtain ⟨r, hr⟩ := suggestedGas_error_is_revert env params _ ci e hsg
            rw [hr] at habs
            exact ServiceError.noConfusion habs
          | ok g =>
            rw [hsg] at habs
            exact Except.noConfusion habs
    · intro isUnwrap habs
      cases hamt : requestedWethAmount params with
      | none =>
        obtain ⟨hbuy, hsell⟩ := requestedWethAmount_none params hamt
        rcases hne with hne | hne
        · exact hne hsell
        · exact hne hbuy
      | some amt =>
        unfold _getSwapQuoteForWethAsync at habs
        rw [hamt] at habs
        simp only at habs
        cases hgp : params.gasPrice with
        | some gp =>
          simp only [hgp] at habs
          exact Except.noConfusion habs
        | none =>
          simp only [hgp] at habs
          cases hge : env.getGasPriceEstimation with
          | error e =>
            rw [hge] at habs
            injection habs with habs
            subst habs
            exact hg hge
          | ok gp =>
            rw [hge] at habs
            exact Except.noConfusion habs
  · intro a hsell
    unfold requestedQuote
    rw [hsell]
  · intro a hsell hbuy
    unfold requestedQuote
    rw [hsell]
    simp only
    rw [hbuy]

/- Two prefixes of the same string are comparable. -/
theorem strStartsWith_comparable (s p1 p2 : String)
    (h1 : strStartsWith s p1 = true) (h2 : strStartsWith s p2 = true) :
    p1.data <+: p2.data ∨ p2.data <+: p1.data := by
  unfold strStartsWith at h1 h2
  exact List.prefix_or_prefix_of_prefix (List.isPrefixOf_iff_prefix.mp h1)
    (List.isPrefixOf_iff_prefix.mp h2)

/- A message starting with `ASSET_UNAVAILABLE` cannot also start with
`INSUFFICIENT_ASSET_LIQUIDITY`. -/
theorem assetUnavailable_not_insufficient (s : String)
    (h : strStartsWith s SwapQuoterErrorAssetUnavailable = true) :
    strStartsWith s SwapQuoterErrorInsufficientAssetLiquidity = false := by
  cases hx : strStartsWith s SwapQuoterErrorInsufficientAssetLiquidity with
  | false => rfl
  | true =>
    rcases strStartsWith_comparable s _ _ h hx with hc | hc
    · exact absurd hc (by decide)
    · exact absurd hc (by decide)

/- A message starting with `ASSET_UNAVAILABLE` cannot also start with
`NO_OPTIMAL_PATH`. -/
theorem assetUnavailable_not_noOptimalPath (s : String)
    (h : strStartsWith s SwapQuoterErrorAssetUnavailable = true) :
    strStartsWith s "NO_OPTIMAL_PATH" = false := by
  cases hx : strStartsWith s "NO_OPTIMAL_PATH" with
  | false => rfl
  | true =>
    rcases strStartsWith_comparable s _ _ h hx with hc | hc
    · exact absurd hc (by decide)
    · exact absurd hc (by decide)

/-- C5: for every error thrown by the swap service inside `getSwapQuoteAsync`:
an error already recognised as an API error is re-thrown unchanged; a revert
error is wrapped as `RevertAPIError`; an error whose message starts with
`INSUFFICIENT_ASSET_LIQUIDITY` or `NO_OPTIMAL_PATH` becomes a
`ValidationError` with code `ValueOutOfRange` on field `buyAmount` when the
request had a `buyAmount` and on field `sellAmount` otherwise; an error whose
message starts with `ASSET_UNAVAILABLE` becomes a `ValidationError` on field
`token`; every other error becomes an `InternalServerError`. -/
theorem swap_error_mapping (buyAmountDefined : Bool) :
    (∀ a, SwapHandlers.mapSwapQuoteError buyAmountDefined (.api a) = a) ∧
    (∀ r, SwapHandlers.mapSwapQuoteError buyAmountDefined (.revert r) = .revertAPIError r) ∧
    (∀ msg, (strStartsWith msg SwapQuoterErrorInsufficientAssetLiquidity = true ∨
             strStartsWith msg "NO_OPTIMAL_PATH" = true) →
      SwapHandlers.mapSwapQuoteError buyAmountDefined (.plain msg) =
        .validationError [{ field := if buyAmountDefined then "buyAmount" else "sellAmount",
                            code := .ValueOutOfRange,
                            reason := SwapQuoterErrorInsufficientAssetLiquidity }]) ∧
    (∀ msg, strStartsWith msg SwapQuoterErrorAssetUnavailable = true →
      SwapHandlers.mapSwapQuoteError buyAmountDefined (.plain msg) =
        .validationError [{ field := "token", code := .ValueOutOfRange, reason := msg }]) ∧
    (∀ msg, strStartsWith msg SwapQuoterErrorInsufficientAssetLiquidity = false →
      strStartsWith msg "NO_OPTIMAL_PATH" = false →
      strStartsWith msg SwapQuoterErrorAssetUnavailable = false →
      SwapHandlers.mapSwapQuoteError buyAmountDefined (.plain msg) =
        .internalServerError msg) := by
  refine ⟨fun a => rfl, fun r => rfl, ?_, ?_, ?_⟩
  · intro msg hmsg
    unfold SwapHandlers.mapSwapQuoteError
    rcases hmsg with h | h <;> simp [h]
  · intro msg hmsg
    have h1 := assetUnavailable_not_insufficient msg hmsg
    have h2 := assetUnavailable_not_noOptimalPath msg hmsg
    unfold SwapHandlers.mapSwapQuoteError
    simp [h1, h2, hmsg]
  · intro msg h1 h2 h3
    unfold SwapHandlers.mapSwapQuoteError
    simp [h1, h2, h3]

/-- C6 (amended): for every request whose tokens both resolve to the same
address and which is neither a wrap nor an unwrap, the handler throws a
`ValidationError` naming both the `buyToken` and `sellToken` fields; and for
every request whose tokens both resolve to distinct addresses, whose
`buyToken` is the ETH symbol and whose `sellToken` is not WETH, the handler
throws a `ValidationError` with code `TokenNotSupported` on field `buyToken`
(the original claim is falsified when both tokens resolve to the same
address, e.g. `sellToken = buyToken = ETH`: the duplicate-token check fires
first). -/
theorem token_validation_rules (henv : HandlerEnv) (env : SwapEnv)
    (req : GetSwapQuoteRequestParams) :
    (∀ addr, henv.findTokenAddress req.sellToken = .ok addr →
      henv.findTokenAddress req.buyToken = .ok addr →
      (henv.isETHSymbol req.sellToken && henv.isWETHSymbolOrAddress req.buyToken) = false →
      (henv.isWETHSymbolOrAddress req.sellToken && henv.isETHSymbol req.buyToken) = false →
      SwapHandlers.getSwapQuoteAsync henv env req =
        .error (.validationError
          [{ field := "buyToken", code := .RequiredField,
             reason := "buyToken and sellToken must be different" },
           { field := "sellToken", code := .RequiredField,
             reason := "buyToken and sellToken must be different" }])) ∧
    (∀ sellAddr buyAddr, henv.findTokenAddress req.sellToken = .ok sellAddr →
      henv.findTokenAddress req.buyToken = .ok buyAddr →
      sellAddr ≠ buyAddr →
      henv.isETHSymbol req.buyToken = true →
      henv.isWETHSymbolOrAddress req.sellToken = false →
      SwapHandlers.getSwapQuoteAsync henv env req =
        .error (.validationError
          [{ field := "buyToken", code := .TokenNotSupported,
             reason := "Buying ETH is unsupported (set to \x27WETH\x27 to received wrapped Ether)" }])) := by
  constructor
  · intro addr h1 h2 hWrapF hUnwrapF
    have hs : findTokenAddressOrThrowApiError henv req.sellToken "sellToken" = .ok addr := by
      unfold findTokenAddressOrThrowApiError
      rw [h1]
    have hb : findTokenAddressOrThrowApiError henv req.buyToken "buyToken" = .ok addr := by
      unfold findTokenAddressOrThrowApiError
      rw [h2]
    unfold SwapHandlers.getSwapQuoteAsync
    rw [hs]
    simp only
    rw [hb]
    simp only [hWrapF, hUnwrapF, Bool.not_false, Bool.and_true, Bool.true_and, beq_self_eq_true,
      if_true]
    rfl
  · intro sellAddr buyAddr h1 h2 hne hETH hWETH
    have hs : findTokenAddressOrThrowApiError henv req.sellToken "sellToken" = .ok sellAddr := by
      unfold findTokenAddressOrThrowApiError
      rw [h1]
    have hb : findTokenAddressOrThrowApiError henv req.buyToken "buyToken" = .ok buyAddr := by
      unfold findTokenAddressOrThrowApiError
      rw [h2]
    have hbeq : (sellAddr == buyAddr) = false := beq_eq_false_iff_ne.mpr hne
    unfold SwapHandlers.getSwapQuoteAsync
    rw [hs]
    simp only
    rw [hb]
    simp only [hbeq, hETH, hWETH, Bool.and_false, Bool.not_false, Bool.and_true, Bool.true_and,
      Bool.false_and, Bool.not_true, if_false, Bool.ite_eq_false_distrib]
    simp

/-- C1 counterexample: with `from` supplied as the empty string the service
skips on-chain estimation (JavaScript truthiness), so the returned gas is the
buffered worst-case gas 11 and not the buffered maximum 110 the claim
demands. -/
theorem swap_gas_emptyFrom_counterexample :
    sampleParamsEmptyFrom.«from» = some "" ∧
    sampleEnv.estimateGas (assembledTxData sampleEnv sampleParamsEmptyFrom
      (_attributeSwapQuoteOrders sampleEnv sampleQuote) sampleCalldataInfo "") = .ok 100 ∧
    (calculateSwapQuoteAsync sampleEnv sampleParamsEmptyFrom).map (fun r => r.gas) = .ok 11 ∧
    integerValue (max (100 : ℚ) sampleQuote.worstCaseQuoteInfo.gas *
      (sampleEnv.GAS_LIMIT_BUFFER_PERCENTAGE + 1)) = 110 ∧
    (11 : ℚ) ≠ 110 := by
  refine ⟨rfl, rfl, ?_, ?_, ?_⟩ <;> with_unfolding_all decide

/-- C2 counterexample: with `from` supplied as the empty string no `eth_call`
is performed (JavaScript truthiness), so even though every `eth_call` of this
environment throws, the service succeeds instead of throwing a revert
error. -/
theorem swap_revert_emptyFrom_counterexample :
    sampleParamsEmptyFrom.«from» = some "" ∧
    sampleEnvCallThrows.ethCall (assembledTxData sampleEnvCallThrows sampleParamsEmptyFrom
      (_attributeSwapQuoteOrders sampleEnvCallThrows sampleQuote) sampleCalldataInfo "") =
      .error (.plain "rpc boom") ∧
    (calculateSwapQuoteAsync sampleEnvCallThrows sampleParamsEmptyFrom).map (fun r => r.gas) =
      .ok 11 := by
  refine ⟨rfl, rfl, ?_⟩
  with_unfolding_all decide

/-- C3 counterexample: with `affiliateAddress` provided as the empty string
the code attributes the calldata to `FEE_RECIPIENT_ADDRESS` (JavaScript
truthiness), not to the provided affiliate as the claim demands. -/
theorem affiliated_calldata_emptyAffiliate_counterexample :
    sampleParamsEmptyAffiliate.affiliateAddress = some "" ∧
    (getSwapQuoteForWrapAsync sampleEnv sampleParamsEmptyAffiliate).map (fun r => r.data) =
      .ok "0xd0e30db0AFF0xfee" ∧
    "0xd0e30db0AFF0xfee" ≠
      sampleEnv.wethDepositData ++
        (sampleEnv.encodeZeroExAPIAffiliate ""
          (integerValue (sampleEnv.nowMs / sampleEnv.ONE_SECOND_MS))).drop 2 := by
  refine ⟨rfl, ?_, ?_⟩ <;> with_unfolding_all decide

/-- C6 counterexample: for `sellToken = buyToken = ETH` the buy token is the
ETH symbol and the sell token is not WETH, yet the handler throws the
duplicate-token `ValidationError` naming both fields (the duplicate check
fires first), not the `TokenNotSupported` error the claim demands. -/
theorem token_validation_counterexample :
    sampleHandlerEnv.isETHSymbol sampleReqEthEth.buyToken = true ∧
    sampleHandlerEnv.isWETHSymbolOrAddress sampleReqEthEth.sellToken = false ∧
    SwapHandlers.getSwapQuoteAsync sampleHandlerEnv sampleEnv sampleReqEthEth =
      .error (.validationError
        [{ field := "buyToken", code := .RequiredField,
           reason := "buyToken and sellToken must be different" },
         { field := "sellToken", code := .RequiredField,
           reason := "buyToken and sellToken must be different" }]) ∧
    (Except.error (APIError.validationError
        [{ field := "buyToken", code := .RequiredField,
           reason := "buyToken and sellToken must be different" },
         { field := "sellToken", code := .RequiredField,
           reason := "buyToken and sellToken must be different" }]) :
      Except APIError GetSwapQuoteResponse) ≠
      .error (.validationError
        [{ field := "buyToken", code := .TokenNotSupported,
           reason := "Buying ETH is unsupported (set to \x27WETH\x27 to received wrapped Ether)" }]) := by
  refine ⟨rfl, rfl, ?_, ?_⟩ <;> with_unfolding_all decide

/-- C1 witness: the amended gas theorem instantiated at a concrete
environment with a non-empty taker address. -/
theorem swap_gas_is_buffered_estimate_witness :
    ∃ q ci,
      requestedQuote sampleEnv sampleParamsFrom = .ok q ∧
      sampleEnv.getCalldataOrThrow (_attributeSwapQuoteOrders sampleEnv q)
        (extensionContractTypeOf sampleParamsFrom) = .ok ci ∧
      sampleSwapResponseFrom.gas = integerValue
        ((match presentString sampleParamsFrom.«from» with
          | none => q.worstCaseQuoteInfo.gas
          | some f =>
            max (gasEstimateOrZero sampleEnv
                (assembledTxData sampleEnv sampleParamsFrom
                  (_attributeSwapQuoteOrders sampleEnv q) ci f))
              q.worstCaseQuoteInfo.gas) *
         (sampleEnv.GAS_LIMIT_BUFFER_PERCENTAGE + 1)) :=
  swap_gas_is_buffered_estimate sampleEnv sampleParamsFrom sampleSwapResponseFrom
    (by with_unfolding_all decide)

/-- C2 witness: the three revert scenarios at concrete environments. -/
theorem swap_revert_behavior_witness :
    calculateSwapQuoteAsync sampleEnvCallThrows sampleParamsFrom =
      .error (.revert (sampleEnvCallThrows.decodeThrownErrorAsRevertError (.plain "rpc boom"))) ∧
    calculateSwapQuoteAsync sampleEnvCallReverts sampleParamsFrom =
      .error (.revert "revert-payload") ∧
    ∃ resp, calculateSwapQuoteAsync sampleEnvGasFails sampleParamsFrom = .ok resp ∧
      resp.gas = integerValue (max 0 sampleQuote.worstCaseQuoteInfo.gas *
        (sampleEnvGasFails.GAS_LIMIT_BUFFER_PERCENTAGE + 1)) := by
  refine ⟨?_, ?_, ?_⟩
  · exact (swap_revert_behavior sampleEnvCallThrows sampleParamsFrom "0xtaker" sampleQuote
      sampleCalldataInfo (by with_unfolding_all decide) rfl rfl).1 (.plain "rpc boom") rfl
  · exact (swap_revert_behavior sampleEnvCallReverts sampleParamsFrom "0xtaker" sampleQuote
      sampleCalldataInfo (by with_unfolding_all decide) rfl rfl).2.1 "0x" "revert-payload" rfl rfl
  · exact (swap_revert_behavior sampleEnvGasFails sampleParamsFrom "0xtaker" sampleQuote
      sampleCalldataInfo (by with_unfolding_all decide) rfl rfl).2.2 "0x"
      (.plain "gas estimation failed") rfl rfl rfl

/-- C3 witness: the affiliated-data shape at concrete swap, wrap and unwrap
quotes. -/
theorem affiliated_calldata_shape_witness :
    (∃ q ci, requestedQuote sampleEnv sampleParams = .ok q ∧
      sampleEnv.getCalldataOrThrow (_attributeSwapQuoteOrders sampleEnv q)
        (extensionContractTypeOf sampleParams) = .ok ci ∧
      sampleSwapResponse.data = ci.calldataHexString ++
        (sampleEnv.encodeZeroExAPIAffiliate
          (match presentString sampleParams.affiliateAddress with
           | some a => a
           | none => sampleEnv.FEE_RECIPIENT_ADDRESS)
          (integerValue (sampleEnv.nowMs / sampleEnv.ONE_SECOND_MS))).drop 2 ∧
      ∃ rest, sampleSwapResponse.data = ci.calldataHexString ++ rest) ∧
    (∃ amt, requestedWethAmount sampleParamsWeth = some amt ∧
      sampleWrapResponse.data = sampleEnv.wethDepositData ++
        (sampleEnv.encodeZeroExAPIAffiliate
          (match presentString sampleParamsWeth.affiliateAddress with
           | some a => a
           | none => sampleEnv.FEE_RECIPIENT_ADDRESS)
          (integerValue (sampleEnv.nowMs / sampleEnv.ONE_SECOND_MS))).drop 2 ∧
      ∃ rest, sampleWrapResponse.data = sampleEnv.wethDepositData ++ rest) ∧
    (∃ amt, requestedWethAmount sampleParamsWeth = some amt ∧
      sampleUnwrapResponse.data = sampleEnv.wethWithdrawData amt ++
        (sampleEnv.encodeZeroExAPIAffiliate
          (match presentString sampleParamsWeth.affiliateAddress with
           | some a => a
           | none => sampleEnv.FEE_RECIPIENT_ADDRESS)
          (integerValue (sampleEnv.nowMs / sampleEnv.ONE_SECOND_MS))).drop 2 ∧
      ∃ rest, sampleUnwrapResponse.data = sampleEnv.wethWithdrawData amt ++ rest) := by
  refine ⟨?_, ?_, ?_⟩
  · exact (affiliated_calldata_shape sampleEnv sampleParams sampleSwapResponse).1
      (by with_unfolding_all decide)
  · exact (affiliated_calldata_shape sampleEnv sampleParamsWeth sampleWrapResponse).2.1
      (by with_unfolding_all decide)
  · exact (affiliated_calldata_shape sampleEnv sampleParamsWeth sampleUnwrapResponse).2.2
      (by with_unfolding_all decide)

/-- C4 witness: the price formulas at a concrete market-sell quote. -/
theorem swap_price_formulas_witness :
    ∃ q, requestedQuote sampleEnv sampleParams = .ok q ∧
      sampleSwapResponse.price =
        (match sampleParams.buyAmount with
         | none =>
           decimalPlaces (sampleEnv.fetchTokenDecimals sampleParams.sellTokenAddress)
             (toUnitAmount q.bestCaseQuoteInfo.makerAssetAmount
                (sampleEnv.fetchTokenDecimals sampleParams.buyTokenAddress) /
              toUnitAmount q.bestCaseQuoteInfo.totalTakerAssetAmount
                (sampleEnv.fetchTokenDecimals sampleParams.sellTokenAddress))
         | some _ =>
           decimalPlaces (sampleEnv.fetchTokenDecimals sampleParams.buyTokenAddress)
             (toUnitAmount q.bestCaseQuoteInfo.totalTakerAssetAmount
                (sampleEnv.fetchTokenDecimals sampleParams.sellTokenAddress) /
              toUnitAmount q.bestCaseQuoteInfo.makerAssetAmount
                (sampleEnv.fetchTokenDecimals sampleParams.buyTokenAddress))) ∧
      sampleSwapResponse.guaranteedPrice =
        (match sampleParams.buyAmount with
         | none =>
           decimalPlaces (sampleEnv.fetchTokenDecimals sampleParams.sellTokenAddress)
             (toUnitAmount q.worstCaseQuoteInfo.makerAssetAmount
                (sampleEnv.fetchTokenDecimals sampleParams.buyTokenAddress) /
              toUnitAmount q.worstCaseQuoteInfo.totalTakerAssetAmount
                (sampleEnv.fetchTokenDecimals sampleParams.sellTokenAddress))
         | some _ =>
           decimalPlaces (sampleEnv.fetchTokenDecimals sampleParams.buyTokenAddress)
             (toUnitAmount q.worstCaseQuoteInfo.totalTakerAssetAmount
                (sampleEnv.fetchTokenDecimals sampleParams.sellTokenAddress) /
              toUnitAmount q.worstCaseQuoteInfo.makerAssetAmount
                (sampleEnv.fetchTokenDecimals sampleParams.buyTokenAddress))) :=
  swap_price_formulas sampleEnv sampleParams sampleSwapResponse (by with_unfolding_all decide)

/-- C5 witness: the error mapping at concrete messages of each class. -/
theorem swap_error_mapping_witness :
    SwapHandlers.mapSwapQuoteError true (.plain "INSUFFICIENT_ASSET_LIQUIDITY (have 1 want 2)") =
      .validationError [{ field := "buyAmount", code := .ValueOutOfRange,
                          reason := SwapQuoterErrorInsufficientAssetLiquidity }] ∧
    SwapHandlers.mapSwapQuoteError false (.plain "ASSET_UNAVAILABLE: token xyz") =
      .validationError [{ field := "token", code := .ValueOutOfRange,
                          reason := "ASSET_UNAVAILABLE: token xyz" }] ∧
    SwapHandlers.mapSwapQuoteError false (.plain "boom") = .internalServerError "boom" := by
  refine ⟨?_, ?_, ?_⟩
  · exact (swap_error_mapping true).2.2.1 "INSUFFICIENT_ASSET_LIQUIDITY (have 1 want 2)"
      (Or.inl (by decide))
  · exact (swap_error_mapping false).2.2.2.1 "ASSET_UNAVAILABLE: token xyz" (by decide)
  · exact (swap_error_mapping false).2.2.2.2 "boom" (by decide) (by decide) (by decide)

/-- C6 witness: the two validation rules at concrete requests. -/
theorem token_validation_rules_witness :
    SwapHandlers.getSwapQuoteAsync sampleHandlerEnv sampleEnv sampleReqDaiDai =
      .error (.validationError
        [{ field := "buyToken", code := .RequiredField,
           reason := "buyToken and sellToken must be different" },
         { field := "sellToken", code := .RequiredField,
           reason := "buyToken and sellToken must be different" }]) ∧
    SwapHandlers.getSwapQuoteAsync sampleHandlerEnv sampleEnv sampleReqDaiEth =
      .error (.validationError
        [{ field := "buyToken", code := .TokenNotSupported,
           reason := "Buying ETH is unsupported (set to \x27WETH\x27 to received wrapped Ether)" }]) := by
  constructor
  · exact (token_validation_rules sampleHandlerEnv sampleEnv sampleReqDaiDai).1 "0xdai"
      (by decide) (by decide) (by decide) (by decide)
  · exact (token_validation_rules sampleHandlerEnv sampleEnv sampleReqDaiEth).2 "0xdai" "0xeee"
      (by decide) (by decide) (by decide) (by decide) (by decide)

/-- C7 witness: the required-amount behavior at concrete parameters. -/
theorem amount_required_behavior_witness :
    calculateSwapQuoteAsync sampleEnv sampleParamsNoAmounts =
      .error (.plain "sellAmount or buyAmount required") ∧
    _getSwapQuoteForWethAsync sampleEnv sampleParamsNoAmounts true =
      .error (.plain "sellAmount or buyAmount required") ∧
    calculateSwapQuoteAsync sampleEnv sampleParams ≠
      .error (.plain "sellAmount or buyAmount required") ∧
    requestedQuote sampleEnv sampleParams =
      sampleEnv.getMarketSellSwapQuote sampleParams.buyTokenAddress
        sampleParams.sellTokenAddress 100 (assetSwapperOptsOf sampleParams) := by
  have h1 := (amount_required_behavior sampleEnv sampleParamsNoAmounts).1 rfl rfl
  have h2 := (amount_required_behavior sampleEnv sampleParams).2.1
    (Or.inl (fun h => Option.noConfusion h))
    (fun b s a o h => Except.noConfusion h)
    (fun b s a o h => Except.noConfusion h)
    (fun qq t h => Except.noConfusion h)
    (fun h => Except.noConfusion h)
  have h3 := (amount_required_behavior sampleEnv sampleParams).2.2.1 100 rfl
  exact ⟨h1.1, h1.2 true, h2.1, h3⟩

/-- C8 witness: the wrap-quote fields at a concrete wrap request. -/
theorem weth_quote_fields_witness :
    sampleWrapResponse.price = 1 ∧ sampleWrapResponse.guaranteedPrice = 1 ∧
    sampleWrapResponse.protocolFee = 0 ∧ sampleWrapResponse.buyAmount = 40 ∧
    sampleWrapResponse.sellAmount = 40 ∧ sampleWrapResponse.sources = [] ∧
    sampleWrapResponse.orders = [] ∧
    sampleWrapResponse.gas =
      (if false then sampleEnv.UNWRAP_QUOTE_GAS else sampleEnv.WRAP_QUOTE_GAS) ∧
    sampleWrapResponse.value = (if false then 0 else 40) ∧
    sampleWrapResponse.«to» = sampleEnv.wethAddress :=
  weth_quote_fields sampleEnv sampleParamsWeth false sampleWrapResponse 40
    (by with_unfolding_all decide) (by with_unfolding_all decide)

/-- C9 witness: order attribution at a concrete quote with one bridge order
and one undecodable order. -/
theorem attribute_orders_frame_witness :
    (_attributeSwapQuoteOrders sampleEnv sampleQuote).bestCaseQuoteInfo =
      sampleQuote.bestCaseQuoteInfo ∧
    ((_attributeSwapQuoteOrders sampleEnv sampleQuote).orders.get
        ⟨0, by with_unfolding_all decide⟩).feeRecipientAddress = "0xfee" ∧
    ((_attributeSwapQuoteOrders sampleEnv sampleQuote).orders.get
        ⟨1, by with_unfolding_all decide⟩).feeRecipientAddress = "0xoldfee" := by
  obtain ⟨hlen, ht, hm, hg, hb, hw, hsb, hpt⟩ := attribute_orders_frame sampleEnv sampleQuote
  refine ⟨hb, ?_, ?_⟩
  · obtain ⟨_, _, _, _, _, _, _, _, _, _, _, _, _, _, _, _, hfee⟩ :=
      hpt 0 (by with_unfolding_all decide) (by with_unfolding_all decide)
    exact hfee.trans (by with_unfolding_all decide)
  · obtain ⟨_, _, _, _, _, _, _, _, _, _, _, _, _, _, _, _, hfee⟩ :=
      hpt 1 (by with_unfolding_all decide) (by with_unfolding_all decide)
    exact hfee.trans (by with_unfolding_all decide)
